import Mathlib

/-!
Shallow embedding of the ask-away audio-capture / chunked-transcription
pipeline (src/audio_recorder.py and src/transcriber.py), together with
theorems settling the specification claims about it.

Conventions of the embedding:
* the filesystem is a map from paths to file sizes (`FS`); chunk-file
  deletion is an `FS` update;
* Python threads are sequentialised: `transcribe` records whether it spawned
  a worker, and `runJob` composes `transcribe` with the worker body
  `transcribe_audio` in the interleaving where the worker runs after
  `transcribe` has registered the job;
* the Whisper inference call is an external parameter
  (`infer : Except String String`, the raw text or the exception message);
* callback invocations are recorded as a list of `CbCall` events;
* audio samples are rationals (the float values the claims are evaluated at
  are exactly representable).
-/

namespace AskAway

/-! ### String utilities (Python `in` on strings, `f"{i:03d}"`) -/

/-- Does the character list start with the given pattern? -/
def listStartsWith : List Char → List Char → Bool
  | [], _ => true
  | _ :: _, [] => false
  | p :: ps, c :: cs => (p == c) && listStartsWith ps cs

/-- Does `pat` occur as a contiguous sublist of the second argument? -/
def hasSubstr (pat : List Char) : List Char → Bool
  | [] => pat.isEmpty
  | c :: rest => listStartsWith pat (c :: rest) || hasSubstr pat rest

/-- Python `pat in s` on strings: substring containment. -/
def strContains (s pat : String) : Bool :=
  hasSubstr pat.data s.data

/-- Python `f"{n:03d}"`: decimal, left-padded with zeros to width 3. -/
def pad3 (n : Nat) : String :=
  if n < 10 then "00" ++ toString n
  else if n < 100 then "0" ++ toString n
  else toString n

/-! ### Filesystem model -/

/-- A filesystem: each path maps to `some size` (file exists, with that many
bytes) or `none` (no file). -/
structure FS where
  size? : String → Option Nat

/-- `os.path.exists`. -/
def FS.pathExists (fs : FS) (p : String) : Bool :=
  (fs.size? p).isSome

/-- `os.path.getsize` (only called on existing files in the source). -/
def FS.getsize (fs : FS) (p : String) : Nat :=
  (fs.size? p).getD 0

/-- `os.remove`. -/
def FS.remove (fs : FS) (p : String) : FS :=
  ⟨fun q => if q = p then none else fs.size? q⟩

/-! ### Transcriber data model (src/transcriber.py) -/

/-- One invocation of the completion callback:
`callback(text_or_error, success, job_id)`. -/
structure CbCall where
  text : String
  success : Bool
  job_id : Option String
deriving DecidableEq

/-- The value stored in `active_transcriptions` for a job (the `thread`
field of the Python dict is dropped; it is never read). -/
structure JobInfo where
  audio_file : String
  is_chunk : Bool
deriving DecidableEq

/-- The `active_transcriptions` Python dict, as an association list with
dict semantics (assignment replaces any existing binding of the key). -/
def ActiveMap := List (String × JobInfo)

instance : DecidableEq ActiveMap := by
  unfold ActiveMap; infer_instance

/-- Python `d[k] = v`. -/
def dictInsert (k : String) (v : JobInfo) (d : ActiveMap) : ActiveMap :=
  (k, v) :: d.filter (fun kv => kv.1 != k)

/-- Python `del d[k]`. -/
def dictDelete (k : String) (d : ActiveMap) : ActiveMap :=
  d.filter (fun kv => kv.1 != k)

/-- Python `k in d`. -/
def dictMem (k : String) (d : ActiveMap) : Bool :=
  d.any (fun kv => kv.1 == k)

/-- `if chunk_id in self.active_transcriptions: del ...` with
`chunk_id` an optional value, as in the worker body. -/
def deleteIfMem (k? : Option String) (d : ActiveMap) : ActiveMap :=
  match k? with
  | none => d
  | some k => if dictMem k d then dictDelete k d else d

/-- The keys of the mapping are pairwise distinct (always true of a Python
dict; an invariant of the embedding). -/
def keysNodup (d : ActiveMap) : Prop :=
  (d.map Prod.fst).Nodup

instance (d : ActiveMap) : Decidable (keysNodup d) := by
  unfold keysNodup; infer_instance

/-- The mutable state of a `Transcriber` that the claims touch. -/
structure TState where
  is_loaded : Bool
  active : ActiveMap

/-- Result of a call to `Transcriber.transcribe`: the returned value, the
callback invocations made synchronously on the caller thread, the updated
transcriber state, and whether a background worker thread was started. -/
structure TranscribeResult where
  ret : Option String
  calls : List CbCall
  st : TState
  spawned : Bool

/-- The job ID `transcribe` assigns: `str(uuid.uuid4())` if
`not is_chunk or chunk_id is None`, else the given `chunk_id`. -/
def jobIdOf (is_chunk : Bool) (chunk_id : Option String)
    (fresh_uuid : String) : String :=
  if !is_chunk || chunk_id = none then fresh_uuid
  else chunk_id.getD fresh_uuid

/-- `Transcriber.transcribe(audio_file, callback, is_chunk, chunk_id)`.
`fresh_uuid` stands for the `str(uuid.uuid4())` generated in the call. -/
def transcribe (st : TState) (fs : FS) (audio_file : String)
    (is_chunk : Bool) (chunk_id : Option String) (fresh_uuid : String) :
    TranscribeResult :=
  if !st.is_loaded then
    { ret := none
      calls := [⟨"Model not loaded yet. Please wait.", false,
                 if is_chunk then chunk_id else none⟩]
      st := st, spawned := false }
  else if !(fs.pathExists audio_file) then
    { ret := none
      calls := [⟨"Audio file not found.", false,
                 if is_chunk then chunk_id else none⟩]
      st := st, spawned := false }
  else
    let transcription_id := jobIdOf is_chunk chunk_id fresh_uuid
    { ret := some transcription_id
      calls := []
      st := { st with active :=
                dictInsert transcription_id ⟨audio_file, is_chunk⟩ st.active }
      spawned := true }

/-- Result of the worker body `Transcriber._transcribe_audio`: the Python
return value, the callback invocations, the updated transcriber state, the
updated filesystem, and whether `self.model.transcribe` was executed. -/
structure WorkerResult where
  ret : Option String
  calls : List CbCall
  st : TState
  fs : FS
  ranInference : Bool

/-- The chunk-file cleanup that every terminal branch of the worker runs:
`if is_chunk and os.path.exists(audio_file) and "recording_chunk" in
audio_file: os.remove(audio_file)`. -/
def chunkCleanup (fs : FS) (audio_file : String) (is_chunk : Bool) : FS :=
  if is_chunk && fs.pathExists audio_file
      && strContains audio_file "recording_chunk" then
    fs.remove audio_file
  else fs

/-- `Transcriber._transcribe_audio(audio_file, callback, is_chunk,
chunk_id)`, the worker-thread body. `infer` is the outcome of the
`self.model.transcribe(...)` call (`.ok raw` with the untrimmed text, or
`.error msg` when it raises an exception with message `msg`). -/
def transcribe_audio (st : TState) (fs : FS) (audio_file : String)
    (is_chunk : Bool) (chunk_id : Option String)
    (infer : Except String String) : WorkerResult :=
  let cbId : Option String := if is_chunk then chunk_id else none
  if !st.is_loaded then
    { ret := none
      calls := [⟨"Model is not loaded. Please call load_model() first.",
                 false, cbId⟩]
      st := st, fs := fs, ranInference := false }
  else if !(fs.pathExists audio_file) then
    { ret := none
      calls := [⟨"Audio file does not exist", false, cbId⟩]
      st := st, fs := fs, ranInference := false }
  else if fs.getsize audio_file = 0 then
    { ret := some ""
      calls := [⟨"", true, cbId⟩]
      st := st
      fs := chunkCleanup fs audio_file is_chunk
      ranInference := false }
  else if fs.getsize audio_file < 1024 then
    { ret := none
      calls := [⟨"Error transcribing audio: Audio file is too small to process",
                 false, cbId⟩]
      st := { st with active := deleteIfMem chunk_id st.active }
      fs := chunkCleanup fs audio_file is_chunk
      ranInference := false }
  else
    match infer with
    | .ok raw =>
        let text := raw.trim
        { ret := some text
          calls := [⟨text, true, cbId⟩]
          st := { st with active := deleteIfMem chunk_id st.active }
          fs := chunkCleanup fs audio_file is_chunk
          ranInference := true }
    | .error e =>
        { ret := none
          calls := [⟨"Error transcribing audio: " ++ e, false, cbId⟩]
          st := { st with active := deleteIfMem chunk_id st.active }
          fs := chunkCleanup fs audio_file is_chunk
          ranInference := true }

/-- Submit a job and, if a worker was spawned, run it to completion (the
interleaving where the worker body executes after `transcribe` has
registered the job and returned). -/
def runJob (st : TState) (fs : FS) (audio_file : String) (is_chunk : Bool)
    (chunk_id : Option String) (fresh_uuid : String)
    (infer : Except String String) :
    TranscribeResult × Option WorkerResult :=
  let tr := transcribe st fs audio_file is_chunk chunk_id fresh_uuid
  if tr.spawned then
    (tr, some (transcribe_audio tr.st fs audio_file is_chunk tr.ret infer))
  else
    (tr, none)

/-! ### Audio recorder data model (src/audio_recorder.py) -/

/-- Truncation toward zero of a rational, the conversion C (and therefore
numpy `.astype(np.int16)` for in-range values) applies to a float. -/
def truncQ (q : ℚ) : ℤ :=
  if 0 ≤ q then ⌊q⌋ else ⌈q⌉

/-- `(audio * 32767).astype(np.int16)` applied to one sample
(`_save_audio_chunk` line 174 and `_save_audio` line 223). -/
def sampleToInt16 (s : ℚ) : ℤ :=
  truncQ (s * 32767)

/-- Modelled from the spec (for comparison with `sampleToInt16`, which is
the source conversion): conversion "via `round(sample * 32767)`, clipping
implicitly at the bounds of the format", i.e. rounding to the nearest integer
and clamping into the int16 range. -/
def specSampleToInt16 (s : ℚ) : ℤ :=
  max (-32768) (min 32767 (round (s * 32767)))

/-- A written WAV file: the parameters passed to the `wave` module and the
int16 sample payload. -/
structure WavFile where
  nchannels : Nat
  sampwidth : Nat
  framerate : Nat
  samples : List ℤ
deriving DecidableEq

/-- The mutable state of an `AudioRecorder` that `stop_recording` reads:
the `recording` flag, the accumulated full-session `frames`, the blocks
still sitting in `_data_queue` when the capture thread has exited, and the
construction-time configuration. -/
structure RState where
  recording : Bool
  frames : List (List ℚ)
  queued : List (List ℚ)
  sample_rate : Nat
  channels : Nat
  temp_dir : String
  audio_filename : Option String

/-- `os.path.join(self.temp_dir, "recording.wav")` in `_save_audio`. -/
def sessionFilepath (temp_dir : String) : String :=
  temp_dir ++ "/recording.wav"

/-- `os.path.join(self.temp_dir, f"chunk_{chunk_index:03d}.wav")` in
`_save_audio_chunk`. -/
def chunkFilepath (temp_dir : String) (chunk_index : Nat) : String :=
  temp_dir ++ "/chunk_" ++ pad3 chunk_index ++ ".wav"

/-- `AudioRecorder._save_audio`: returns the written file (path and
contents) and the updated state; `none` when `self.frames` is empty. -/
def save_audio (st : RState) : Option (String × WavFile) × RState :=
  if st.frames = [] then
    (none, st)
  else
    let audio := st.frames.flatten
    let audio_int16 := audio.map sampleToInt16
    let filepath := sessionFilepath st.temp_dir
    (some (filepath, ⟨st.channels, 2, st.sample_rate, audio_int16⟩),
     { st with audio_filename := some filepath })

/-- `AudioRecorder._save_audio_chunk(chunk, chunk_index)`: the written
chunk file, or `none` for an empty chunk. -/
def save_audio_chunk (st : RState) (chunk : List (List ℚ))
    (chunk_index : Nat) : Option (String × WavFile) :=
  if chunk = [] then
    none
  else
    let audio := chunk.flatten
    let audio_int16 := audio.map sampleToInt16
    some (chunkFilepath st.temp_dir chunk_index,
          ⟨st.channels, 2, st.sample_rate, audio_int16⟩)

/-- `AudioRecorder.stop_recording`: returns `none` when not recording;
otherwise clears the flag, joins the capture thread (sequentialised: the
thread has exited, leaving `st.queued` in the data queue), drains the
queue into `frames`, and saves the whole session via `_save_audio`. -/
def stop_recording (st : RState) : Option (String × WavFile) × RState :=
  if !st.recording then
    (none, st)
  else
    save_audio { st with
      recording := false
      frames := st.frames ++ st.queued
      queued := [] }

/-- The chunk-file paths a session that flushes `numChunks` chunks writes:
`_record_audio` initialises `chunk_count = 0` on every call and increments
it once per flushed chunk. -/
def sessionChunkPaths (temp_dir : String) (numChunks : Nat) : List String :=
  (List.range numChunks).map (chunkFilepath temp_dir)

/-! ### Concrete states used by counterexamples and witnesses -/

/-- A transcriber whose model finished loading and with no active jobs. -/
def stLoaded : TState := ⟨true, []⟩

/-- A transcriber whose model is not loaded. -/
def stUnloaded : TState := ⟨false, []⟩

/-- A filesystem holding exactly one zero-byte file. -/
def fsEmptyFile : FS := ⟨fun p => if p = "/tmp/a.wav" then some 0 else none⟩

/-- A filesystem holding one 64000-byte chunk file written by the capture
engine for chunk index 0 in temp dir `/tmp`. -/
def fsChunkFile : FS :=
  ⟨fun p => if p = chunkFilepath "/tmp" 0 then some 64000 else none⟩

/-- A filesystem holding one 2048-byte audio file. -/
def fsBigFile : FS := ⟨fun p => if p = "/tmp/b.wav" then some 2048 else none⟩

/-- A filesystem holding one 100-byte (undersized) audio file. -/
def fsSmallFile : FS := ⟨fun p => if p = "/tmp/s.wav" then some 100 else none⟩

/-- An idle recorder. -/
def rstIdle : RState := ⟨false, [], [], 16000, 1, "/tmp", none⟩

/-- A recording recorder with one appended block and one still-queued
block. -/
def rstActive : RState := ⟨true, [[1/2]], [[0]], 16000, 1, "/tmp", none⟩

/-- The worker run on the chunk job of `fsChunkFile`, with inference
raising an exception (one of the terminal outcomes). -/
def c2worker : WorkerResult :=
  transcribe_audio ⟨true, [("c0", ⟨chunkFilepath "/tmp" 0, true⟩)]⟩
    fsChunkFile (chunkFilepath "/tmp" 0) true (some "c0") (.error "boom")

/-! ### Dictionary lemmas -/

theorem dictMem_dictInsert_self (k : String) (v : JobInfo) (d : ActiveMap) :
    dictMem k (dictInsert k v d) = true := by
  simp [dictMem, dictInsert]

theorem dictMem_dictDelete_self (k : String) (d : ActiveMap) :
    dictMem k (dictDelete k d) = false := by
  unfold dictMem dictDelete
  rw [Bool.eq_false_iff]
  intro h
  obtain ⟨kv, hmem, hk⟩ := List.any_eq_true.mp h
  obtain ⟨-, hne⟩ := List.mem_filter.mp hmem
  exact bne_iff_ne.mp hne (beq_iff_eq.mp hk)

theorem dictMem_deleteIfMem_self (k : String) (d : ActiveMap) :
    dictMem k (deleteIfMem (some k) d) = false := by
  show dictMem k (if dictMem k d = true then dictDelete k d else d) = false
  by_cases hm : dictMem k d = true
  · rw [if_pos hm]; exact dictMem_dictDelete_self k d
  · rw [if_neg hm]; simpa using hm

theorem keysNodup_filter (p : String × JobInfo → Bool) (d : ActiveMap)
    (h : keysNodup d) : keysNodup (d.filter p) := by
  unfold keysNodup at h ⊢
  exact h.sublist (List.Sublist.map Prod.fst (List.filter_sublist d))

theorem keysNodup_dictInsert (k : String) (v : JobInfo) (d : ActiveMap)
    (h : keysNodup d) : keysNodup (dictInsert k v d) := by
  unfold keysNodup dictInsert
  refine List.Nodup.cons ?_ (keysNodup_filter _ d h)
  intro hmem
  obtain ⟨kv, hkv, hk⟩ := List.mem_map.mp hmem
  obtain ⟨-, hne⟩ := List.mem_filter.mp hkv
  exact bne_iff_ne.mp hne hk

theorem keysNodup_deleteIfMem (k? : Option String) (d : ActiveMap)
    (h : keysNodup d) : keysNodup (deleteIfMem k? d) := by
  match k? with
  | none => exact h
  | some k =>
      show keysNodup (if dictMem k d = true then dictDelete k d else d)
      by_cases hm : dictMem k d = true
      · rw [if_pos hm]; exact keysNodup_filter _ d h
      · rw [if_neg hm]; exact h

/-! ### Branch lemmas for `transcribe` and the worker body -/

theorem transcribe_accepted (st : TState) (fs : FS) (f : String)
    (ic : Bool) (cid : Option String) (fresh : String)
    (hl : st.is_loaded = true) (he : fs.pathExists f = true) :
    transcribe st fs f ic cid fresh =
      { ret := some (jobIdOf ic cid fresh)
        calls := []
        st := { st with active :=
                  dictInsert (jobIdOf ic cid fresh) ⟨f, ic⟩ st.active }
        spawned := true } := by
  simp [transcribe, hl, he]

theorem transcribe_audio_empty (st : TState) (fs : FS) (f : String)
    (ic : Bool) (cid : Option String) (infer : Except String String)
    (hl : st.is_loaded = true) (he : fs.pathExists f = true)
    (hz : fs.getsize f = 0) :
    transcribe_audio st fs f ic cid infer =
      { ret := some ""
        calls := [⟨"", true, if ic then cid else none⟩]
        st := st
        fs := chunkCleanup fs f ic
        ranInference := false } := by
  simp [transcribe_audio, hl, he, hz]

theorem transcribe_audio_small (st : TState) (fs : FS) (f : String)
    (ic : Bool) (cid : Option String) (infer : Except String String)
    (hl : st.is_loaded = true) (he : fs.pathExists f = true)
    (hz : fs.getsize f ≠ 0) (hs : fs.getsize f < 1024) :
    transcribe_audio st fs f ic cid infer =
      { ret := none
        calls := [⟨"Error transcribing audio: Audio file is too small to process",
                   false, if ic then cid else none⟩]
        st := { st with active := deleteIfMem cid st.active }
        fs := chunkCleanup fs f ic
        ranInference := false } := by
  simp [transcribe_audio, hl, he, hz, hs]

theorem transcribe_audio_ok (st : TState) (fs : FS) (f : String)
    (ic : Bool) (cid : Option String) (raw : String)
    (hl : st.is_loaded = true) (he : fs.pathExists f = true)
    (hz : fs.getsize f ≠ 0) (hs : ¬ fs.getsize f < 1024) :
    transcribe_audio st fs f ic cid (.ok raw) =
      { ret := some raw.trim
        calls := [⟨raw.trim, true, if ic then cid else none⟩]
        st := { st with active := deleteIfMem cid st.active }
        fs := chunkCleanup fs f ic
        ranInference := true } := by
  simp [transcribe_audio, hl, he, hz, hs]

theorem transcribe_audio_err (st : TState) (fs : FS) (f : String)
    (ic : Bool) (cid : Option String) (e : String)
    (hl : st.is_loaded = true) (he : fs.pathExists f = true)
    (hz : fs.getsize f ≠ 0) (hs : ¬ fs.getsize f < 1024) :
    transcribe_audio st fs f ic cid (.error e) =
      { ret := none
        calls := [⟨"Error transcribing audio: " ++ e, false,
                   if ic then cid else none⟩]
        st := { st with active := deleteIfMem cid st.active }
        fs := chunkCleanup fs f ic
        ranInference := true } := by
  simp [transcribe_audio, hl, he, hz, hs]

theorem runJob_accepted (st : TState) (fs : FS) (f : String)
    (ic : Bool) (cid : Option String) (fresh : String)
    (infer : Except String String)
    (hl : st.is_loaded = true) (he : fs.pathExists f = true) :
    runJob st fs f ic cid fresh infer =
      (transcribe st fs f ic cid fresh,
       some (transcribe_audio
         { st with active :=
             dictInsert (jobIdOf ic cid fresh) ⟨f, ic⟩ st.active }
         fs f ic (some (jobIdOf ic cid fresh)) infer)) := by
  rw [runJob, transcribe_accepted st fs f ic cid fresh hl he]
  rfl

/-! ### Claim theorems -/

/-- C4: for every call to `transcribe` made while the model is not loaded,
or with an `audio_file` path that does not exist, `transcribe` fails
synchronously — it invokes the callback with `success = false` and returns
`none` on the thread of the caller — and spawns no background worker thread. -/
theorem transcribe_precondition_fails_sync (st : TState) (fs : FS)
    (f : String) (ic : Bool) (cid : Option String) (fresh : String)
    (h : st.is_loaded = false ∨ fs.pathExists f = false) :
    (transcribe st fs f ic cid fresh).ret = none ∧
    (transcribe st fs f ic cid fresh).spawned = false ∧
    (transcribe st fs f ic cid fresh).st = st ∧
    ∃ msg, (transcribe st fs f ic cid fresh).calls =
      [⟨msg, false, if ic then cid else none⟩] := by
  rcases h with h | h
  · exact ⟨by simp [transcribe, h], by simp [transcribe, h],
      by simp [transcribe, h],
      "Model not loaded yet. Please wait.", by simp [transcribe, h]⟩
  · by_cases hl : st.is_loaded = true
    · exact ⟨by simp [transcribe, hl, h], by simp [transcribe, hl, h],
        by simp [transcribe, hl, h],
        "Audio file not found.", by simp [transcribe, hl, h]⟩
    · rw [Bool.not_eq_true] at hl
      exact ⟨by simp [transcribe, hl], by simp [transcribe, hl],
        by simp [transcribe, hl],
        "Model not loaded yet. Please wait.", by simp [transcribe, hl]⟩

/-- Witness for C4 at a concrete input: an unloaded transcriber and a
missing file. -/
theorem transcribe_precondition_fails_sync_witness :
    (stUnloaded.is_loaded = false ∨
      fsEmptyFile.pathExists "q.wav" = false) ∧
    ((transcribe stUnloaded fsEmptyFile "q.wav" false none "u1").ret = none ∧
     (transcribe stUnloaded fsEmptyFile "q.wav" false none "u1").spawned
        = false ∧
     (transcribe stUnloaded fsEmptyFile "q.wav" false none "u1").st
        = stUnloaded ∧
     ∃ msg, (transcribe stUnloaded fsEmptyFile "q.wav" false none "u1").calls
        = [⟨msg, false, if false then none else none⟩]) :=
  ⟨Or.inl rfl,
   transcribe_precondition_fails_sync stUnloaded fsEmptyFile "q.wav"
     false none "u1" (Or.inl rfl)⟩

/-- C5: for every submitted job whose audio file exists but has size zero
bytes, the worker invokes the completion callback with the empty string and
`success = true` (with the job ID for chunk jobs), and returns without
running inference. -/
theorem empty_file_silent_success (st : TState) (fs : FS) (f : String)
    (ic : Bool) (cid : Option String) (fresh : String)
    (infer : Except String String)
    (hl : st.is_loaded = true) (he : fs.pathExists f = true)
    (hz : fs.getsize f = 0) :
    ∃ jobId w,
      (runJob st fs f ic cid fresh infer).1.ret = some jobId ∧
      (runJob st fs f ic cid fresh infer).2 = some w ∧
      w.calls = [⟨"", true, if ic then some jobId else none⟩] ∧
      w.ret = some "" ∧
      w.ranInference = false := by
  rw [runJob_accepted st fs f ic cid fresh infer hl he,
    transcribe_audio_empty
      { st with active := dictInsert (jobIdOf ic cid fresh) ⟨f, ic⟩ st.active }
      fs f ic (some (jobIdOf ic cid fresh)) infer hl he hz]
  refine ⟨jobIdOf ic cid fresh, _, ?_, rfl, rfl, rfl, rfl⟩
  rw [transcribe_accepted st fs f ic cid fresh hl he]

/-- Witness for C5: a loaded transcriber and a concrete zero-byte file. -/
theorem empty_file_silent_success_witness :
    stLoaded.is_loaded = true ∧
    fsEmptyFile.pathExists "/tmp/a.wav" = true ∧
    fsEmptyFile.getsize "/tmp/a.wav" = 0 ∧
    ∃ jobId w,
      (runJob stLoaded fsEmptyFile "/tmp/a.wav" true (some "c7") "u1"
        (.ok "x")).1.ret = some jobId ∧
      (runJob stLoaded fsEmptyFile "/tmp/a.wav" true (some "c7") "u1"
        (.ok "x")).2 = some w ∧
      w.calls = [⟨"", true, if true then some jobId else none⟩] ∧
      w.ret = some "" ∧
      w.ranInference = false :=
  ⟨rfl, by decide, by decide,
   empty_file_silent_success stLoaded fsEmptyFile "/tmp/a.wav" true
     (some "c7") "u1" (.ok "x") rfl (by decide) (by decide)⟩

/-- C6: for every submitted job whose audio file has size strictly between
zero and 1024 bytes, the worker treats it as an error: the completion
callback fires with `success = false` and a non-empty descriptive error
string, and no transcript is produced (the worker returns `none`). -/
theorem small_file_error (st : TState) (fs : FS) (f : String)
    (ic : Bool) (cid : Option String) (fresh : String)
    (infer : Except String String)
    (hl : st.is_loaded = true) (he : fs.pathExists f = true)
    (hz : 0 < fs.getsize f) (hs : fs.getsize f < 1024) :
    ∃ jobId w,
      (runJob st fs f ic cid fresh infer).1.ret = some jobId ∧
      (runJob st fs f ic cid fresh infer).2 = some w ∧
      ∃ msg, msg ≠ "" ∧
        w.calls = [⟨msg, false, if ic then some jobId else none⟩] ∧
        w.ret = none := by
  rw [runJob_accepted st fs f ic cid fresh infer hl he,
    transcribe_audio_small
      { st with active := dictInsert (jobIdOf ic cid fresh) ⟨f, ic⟩ st.active }
      fs f ic (some (jobIdOf ic cid fresh)) infer hl he
      (Nat.pos_iff_ne_zero.mp hz) hs]
  refine ⟨jobIdOf ic cid fresh, _, ?_, rfl,
    "Error transcribing audio: Audio file is too small to process",
    by decide, rfl, rfl⟩
  rw [transcribe_accepted st fs f ic cid fresh hl he]

/-- Witness for C6: a loaded transcriber and a concrete 100-byte file. -/
theorem small_file_error_witness :
    stLoaded.is_loaded = true ∧
    fsSmallFile.pathExists "/tmp/s.wav" = true ∧
    0 < fsSmallFile.getsize "/tmp/s.wav" ∧
    fsSmallFile.getsize "/tmp/s.wav" < 1024 ∧
    ∃ jobId w,
      (runJob stLoaded fsSmallFile "/tmp/s.wav" false none "u2"
        (.ok "x")).1.ret = some jobId ∧
      (runJob stLoaded fsSmallFile "/tmp/s.wav" false none "u2"
        (.ok "x")).2 = some w ∧
      ∃ msg, msg ≠ "" ∧
        w.calls = [⟨msg, false, if false then some jobId else none⟩] ∧
        w.ret = none :=
  ⟨rfl, by decide, by decide, by decide,
   small_file_error stLoaded fsSmallFile "/tmp/s.wav" false none "u2"
     (.ok "x") rfl (by decide) (by decide) (by decide)⟩

/-- Every callback a worker run with `is_chunk = false` makes carries
`job_id = none` (helper for C9). -/
theorem worker_nonchunk_calls_job_id_none (st : TState) (fs : FS)
    (f : String) (cid : Option String) (infer : Except String String) :
    ∀ c ∈ (transcribe_audio st fs f false cid infer).calls,
      c.job_id = none := by
  by_cases hl : st.is_loaded = true
  · by_cases he : fs.pathExists f = true
    · by_cases hz : fs.getsize f = 0
      · rw [transcribe_audio_empty st fs f false cid infer hl he hz]
        simp
      · by_cases hs : fs.getsize f < 1024
        · rw [transcribe_audio_small st fs f false cid infer hl he hz hs]
          simp
        · match infer with
          | .ok raw =>
              rw [transcribe_audio_ok st fs f false cid raw hl he hz hs]
              simp
          | .error e =>
              rw [transcribe_audio_err st fs f false cid e hl he hz hs]
              simp
    · rw [Bool.not_eq_true] at he
      simp [transcribe_audio, hl, he]
  · rw [Bool.not_eq_true] at hl
    simp [transcribe_audio, hl]

/-- C9: for every non-chunk job (`is_chunk = false`) accepted by
`transcribe`, the `job_id` argument of the completion callback is `none` in
every terminal case, even though `transcribe` returns the freshly
generated UUID job ID to the caller. -/
theorem nonchunk_callback_job_id_none (st : TState) (fs : FS) (f : String)
    (cid : Option String) (fresh : String) (infer : Except String String)
    (hl : st.is_loaded = true) (he : fs.pathExists f = true) :
    (runJob st fs f false cid fresh infer).1.ret = some fresh ∧
    ∀ w, (runJob st fs f false cid fresh infer).2 = some w →
      ∀ c ∈ w.calls, c.job_id = none := by
  rw [runJob_accepted st fs f false cid fresh infer hl he]
  constructor
  · simp [transcribe, hl, he, jobIdOf]
  · rintro w hw c hc
    obtain rfl : _ = w := Option.some_injective _ hw
    exact worker_nonchunk_calls_job_id_none _ fs f _ infer c hc

/-- How the worker body changes `active_transcriptions`: unchanged on the
zero-byte path, `deleteIfMem chunk_id` on the other terminal paths
(helper for C1). -/
theorem worker_active_cases (st : TState) (fs : FS) (f : String)
    (ic : Bool) (cid : Option String) (infer : Except String String)
    (hl : st.is_loaded = true) (he : fs.pathExists f = true) :
    (fs.getsize f = 0 ∧
      (transcribe_audio st fs f ic cid infer).st.active = st.active) ∨
    (fs.getsize f ≠ 0 ∧
      (transcribe_audio st fs f ic cid infer).st.active
        = deleteIfMem cid st.active) := by
  by_cases hz : fs.getsize f = 0
  · exact Or.inl ⟨hz, by
      rw [transcribe_audio_empty st fs f ic cid infer hl he hz]⟩
  · refine Or.inr ⟨hz, ?_⟩
    by_cases hs : fs.getsize f < 1024
    · rw [transcribe_audio_small st fs f ic cid infer hl he hz hs]
    · match infer with
      | .ok raw => rw [transcribe_audio_ok st fs f ic cid raw hl he hz hs]
      | .error e => rw [transcribe_audio_err st fs f ic cid e hl he hz hs]

/-- C1 counterexample: a job on a zero-byte file is accepted and its
worker reaches the empty-result terminal state (it invokes
`callback("", true, None)` and returns), yet the job entry is still in
`active_transcriptions` afterwards — refuting removal on every terminal
state. -/
theorem empty_result_leaves_job_registered :
    ((runJob stLoaded fsEmptyFile "/tmp/a.wav" false none "job-1"
        (.ok "")).2.map
      (fun w => (w.calls, w.ranInference, dictMem "job-1" w.st.active))) =
      some ([⟨"", true, none⟩], false, true) := by decide

/-- C1 (amended): every job accepted by `transcribe` is registered in
`active_transcriptions` under its job ID at submission, and the mapping
holds at most one entry per ID; the worker removes the entry when it
terminates with success or with an error, but on the empty-result
(zero-byte file) terminal path the entry is not removed. -/
theorem job_registered_removed_unless_empty (st : TState) (fs : FS)
    (f : String) (ic : Bool) (cid : Option String) (fresh : String)
    (infer : Except String String)
    (hn : keysNodup st.active)
    (hl : st.is_loaded = true) (he : fs.pathExists f = true) :
    ∃ jobId w,
      (runJob st fs f ic cid fresh infer).1.ret = some jobId ∧
      (runJob st fs f ic cid fresh infer).2 = some w ∧
      dictMem jobId (runJob st fs f ic cid fresh infer).1.st.active
        = true ∧
      keysNodup (runJob st fs f ic cid fresh infer).1.st.active ∧
      keysNodup w.st.active ∧
      (fs.getsize f ≠ 0 → dictMem jobId w.st.active = false) ∧
      (fs.getsize f = 0 → dictMem jobId w.st.active = true) := by
  rw [runJob_accepted st fs f ic cid fresh infer hl he,
      transcribe_accepted st fs f ic cid fresh hl he]
  refine ⟨jobIdOf ic cid fresh, _, rfl, rfl,
    dictMem_dictInsert_self _ _ st.active,
    keysNodup_dictInsert _ _ st.active hn, ?_, ?_, ?_⟩
  all_goals
    rcases worker_active_cases
        { st with active :=
            dictInsert (jobIdOf ic cid fresh) ⟨f, ic⟩ st.active }
        fs f ic (some (jobIdOf ic cid fresh)) infer hl he with
      ⟨hz, hact⟩ | ⟨hz, hact⟩
  · rw [hact]
    exact keysNodup_dictInsert _ _ st.active hn
  · rw [hact]
    exact keysNodup_deleteIfMem _ _
      (keysNodup_dictInsert _ _ st.active hn)
  · intro hnz; exact absurd hz hnz
  · intro _; rw [hact]; exact dictMem_deleteIfMem_self _ _
  · intro _; rw [hact]; exact dictMem_dictInsert_self _ _ st.active
  · intro hzz; exact absurd hzz hz

/-- Witness for C1 (amended): a concrete accepted job on a 2048-byte
file. -/
theorem job_registered_removed_unless_empty_witness :
    keysNodup stLoaded.active ∧
    stLoaded.is_loaded = true ∧
    fsBigFile.pathExists "/tmp/b.wav" = true ∧
    ∃ jobId w,
      (runJob stLoaded fsBigFile "/tmp/b.wav" false none "u4"
        (.ok "text")).1.ret = some jobId ∧
      (runJob stLoaded fsBigFile "/tmp/b.wav" false none "u4"
        (.ok "text")).2 = some w ∧
      dictMem jobId (runJob stLoaded fsBigFile "/tmp/b.wav" false none
        "u4" (.ok "text")).1.st.active = true ∧
      keysNodup (runJob stLoaded fsBigFile "/tmp/b.wav" false none "u4"
        (.ok "text")).1.st.active ∧
      keysNodup w.st.active ∧
      (fsBigFile.getsize "/tmp/b.wav" ≠ 0 →
        dictMem jobId w.st.active = false) ∧
      (fsBigFile.getsize "/tmp/b.wav" = 0 →
        dictMem jobId w.st.active = true) :=
  ⟨by decide, rfl, by decide,
   job_registered_removed_unless_empty stLoaded fsBigFile "/tmp/b.wav"
     false none "u4" (.ok "text") (by decide) rfl (by decide)⟩

/-- C2 (code bug): on a terminal run of a chunk job whose file carries the
chunk-file name of the capture engine (`chunk_000.wav` in the temp dir), the
worker terminates (callback fired, job removed from the active mapping)
yet the chunk file is NOT deleted: the cleanup only fires when the path
contains the substring `"recording_chunk"`, which the capture-engine
naming `chunk_` plus a zero-padded index plus `.wav` never produces. -/
theorem chunk_file_survives_terminal_worker :
    strContains (chunkFilepath "/tmp" 0) "recording_chunk" = false ∧
    c2worker.calls
      = [⟨"Error transcribing audio: boom", false, some "c0"⟩] ∧
    dictMem "c0" c2worker.st.active = false ∧
    c2worker.fs.pathExists (chunkFilepath "/tmp" 0) = true := by decide

/-- Witness for C9: a non-chunk job on a concrete 2048-byte file, with
successful inference. -/
theorem nonchunk_callback_job_id_none_witness :
    stLoaded.is_loaded = true ∧
    fsBigFile.pathExists "/tmp/b.wav" = true ∧
    ((runJob stLoaded fsBigFile "/tmp/b.wav" false (some "ignored") "u3"
        (.ok " hi ")).1.ret = some "u3" ∧
     ∀ w, (runJob stLoaded fsBigFile "/tmp/b.wav" false (some "ignored")
        "u3" (.ok " hi ")).2 = some w →
       ∀ c ∈ w.calls, c.job_id = none) :=
  ⟨rfl, by decide,
   nonchunk_callback_job_id_none stLoaded fsBigFile "/tmp/b.wav"
     (some "ignored") "u3" (.ok " hi ") rfl (by decide)⟩

/-- C3 counterexample: at the in-range sample `1/2` (exactly representable
in the float format of the source), the source conversion
`(audio * 32767).astype(np.int16)` yields `16383` (truncation toward
zero), while the claimed `round(sample * 32767)` yields `16384`. -/
theorem sample_conversion_rounds_differently :
    sampleToInt16 (1/2) = 16383 ∧ specSampleToInt16 (1/2) = 16384 ∧
    sampleToInt16 (1/2) ≠ specSampleToInt16 (1/2) := by
  have h1 : sampleToInt16 (1/2) = 16383 := by
    show truncQ ((1/2 : ℚ) * 32767) = 16383
    unfold truncQ
    rw [if_pos (by norm_num : (0:ℚ) ≤ (1/2 : ℚ) * 32767)]
    rw [Int.floor_eq_iff]
    norm_num
  have h2 : specSampleToInt16 (1/2) = 16384 := by
    unfold specSampleToInt16
    rw [round_eq,
      show ((1/2 : ℚ) * 32767 + 1/2) = ((16384:ℤ):ℚ) by norm_num,
      Int.floor_intCast]
    norm_num
  exact ⟨h1, h2, by rw [h1, h2]; decide⟩

/-- C3 (amended): each captured sample `s` in `[-1, 1]` is converted to
int16 by truncating `s * 32767` toward zero (not rounding); for such
samples the result already lies within `[-32767, 32767]`, inside the int16
bounds, so no clipping occurs. -/
theorem sample_conversion_truncates_within_bounds (s : ℚ)
    (hlo : -1 ≤ s) (hhi : s ≤ 1) :
    sampleToInt16 s = truncQ (s * 32767) ∧
    -32767 ≤ sampleToInt16 s ∧ sampleToInt16 s ≤ 32767 := by
  have hqlo : ((-32767 : ℤ) : ℚ) ≤ s * 32767 := by push_cast; nlinarith
  have hqhi : s * 32767 ≤ ((32767 : ℤ) : ℚ) := by push_cast; nlinarith
  refine ⟨rfl, ?_, ?_⟩
  · show -32767 ≤ truncQ (s * 32767)
    unfold truncQ
    split
    · next h =>
        have h0 : (0:ℤ) ≤ ⌊s * 32767⌋ := Int.floor_nonneg.mpr h
        omega
    · next _ =>
        have hc : ⌈((-32767 : ℤ) : ℚ)⌉ ≤ ⌈s * 32767⌉ := Int.ceil_mono hqlo
        rwa [Int.ceil_intCast] at hc
  · show truncQ (s * 32767) ≤ 32767
    unfold truncQ
    split
    · next _ =>
        have hf : ⌊s * 32767⌋ ≤ ⌊((32767 : ℤ) : ℚ)⌋ := Int.floor_mono hqhi
        rwa [Int.floor_intCast] at hf
    · next h =>
        push_neg at h
        have h0 : ⌈s * 32767⌉ ≤ (0:ℤ) :=
          Int.ceil_le.mpr (by exact_mod_cast h.le)
        omega

/-- Witness for C3 (amended) at the concrete sample `1/2`. -/
theorem sample_conversion_truncates_within_bounds_witness :
    (-1 ≤ (1/2 : ℚ)) ∧ ((1/2 : ℚ) ≤ 1) ∧
    (sampleToInt16 (1/2) = truncQ ((1/2 : ℚ) * 32767) ∧
     -32767 ≤ sampleToInt16 (1/2) ∧ sampleToInt16 (1/2) ≤ 32767) :=
  ⟨by norm_num, by norm_num,
   sample_conversion_truncates_within_bounds (1/2) (by norm_num)
     (by norm_num)⟩

/-- C7: `stop_recording` returns `none` when the recorder is not in the
recording state; otherwise it stops the loop, drains the still-queued
blocks, and returns `none` when zero sample blocks were captured, or else
the path of one output file containing the samples of the entire session at the
configured sample rate and channel count. -/
theorem stop_recording_behavior (st : RState) :
    (st.recording = false → stop_recording st = (none, st)) ∧
    (st.recording = true → st.frames ++ st.queued = [] →
      (stop_recording st).1 = none) ∧
    (st.recording = true → st.frames ++ st.queued ≠ [] →
      (stop_recording st).1 =
        some (sessionFilepath st.temp_dir,
          ⟨st.channels, 2, st.sample_rate,
           (st.frames ++ st.queued).flatten.map sampleToInt16⟩)) := by
  refine ⟨?_, ?_, ?_⟩
  · intro h
    simp [stop_recording, h]
  · intro h hemp
    simp [stop_recording, save_audio, h, hemp]
  · intro h hne
    simp [stop_recording, save_audio, h, hne]

/-- Witness for C7: an idle recorder returns `none`; a recording recorder
with one appended and one queued block returns the session file built from
both. -/
theorem stop_recording_behavior_witness :
    (rstIdle.recording = false ∧ stop_recording rstIdle = (none, rstIdle)) ∧
    (rstActive.recording = true ∧
     rstActive.frames ++ rstActive.queued ≠ [] ∧
     (stop_recording rstActive).1 =
       some (sessionFilepath rstActive.temp_dir,
         ⟨rstActive.channels, 2, rstActive.sample_rate,
          (rstActive.frames ++ rstActive.queued).flatten.map
            sampleToInt16⟩)) :=
  ⟨⟨rfl, (stop_recording_behavior rstIdle).1 rfl⟩,
   ⟨rfl, by decide,
    (stop_recording_behavior rstActive).2.2 rfl (by decide)⟩⟩

/-- C10: output paths are fixed: the session file goes to
`recording.wav` in the temp directory and the chunk with index `k` goes to
`chunk_<k>.wav` (zero-padded to three digits), with indices restarting at
0 each session — so the k-th chunk path and the session path are identical
across any two sessions, and a new session overwrites the files of the previous
session. -/
theorem output_paths_fixed (d : String) (n₁ n₂ k : Nat)
    (h₁ : k < n₁) (h₂ : k < n₂) :
    sessionFilepath d = d ++ "/recording.wav" ∧
    (sessionChunkPaths d n₁)[k]? =
      some (d ++ "/chunk_" ++ pad3 k ++ ".wav") ∧
    (sessionChunkPaths d n₁)[k]? = (sessionChunkPaths d n₂)[k]? := by
  refine ⟨rfl, ?_, ?_⟩
  · simp [sessionChunkPaths, chunkFilepath, List.getElem?_map,
      List.getElem?_range, h₁]
  · simp [sessionChunkPaths, List.getElem?_map, List.getElem?_range,
      h₁, h₂]

/-- Witness for C10: chunk 0 of a one-chunk session and of a two-chunk
session in `/tmp`. -/
theorem output_paths_fixed_witness :
    (0 < 1) ∧ (0 < 2) ∧
    (sessionFilepath "/tmp" = "/tmp" ++ "/recording.wav" ∧
     (sessionChunkPaths "/tmp" 1)[0]? =
       some ("/tmp" ++ "/chunk_" ++ pad3 0 ++ ".wav") ∧
     (sessionChunkPaths "/tmp" 1)[0]? = (sessionChunkPaths "/tmp" 2)[0]?) :=
  ⟨Nat.zero_lt_one, by norm_num,
   output_paths_fixed "/tmp" 1 2 0 Nat.zero_lt_one (by norm_num)⟩

end AskAway
